import Mathlib

/-!
Shallow embedding of the pose-comparison scoring engine of the
`video-parser` repository (files `src/pose/comparator/pose-comparator.ts`,
`src/pose/pose-comparison.utils.ts`, `src/pose/pose-comparison.types.ts`),
with the numeric type taken to be the real numbers, together with
theorems settling the specification claims about it.
-/

namespace VideoParser

/-- A 3D point (`Point3D` in `pose-comparison.utils.ts`). -/
structure Point3D where
  x : ℝ
  y : ℝ
  z : ℝ

/-- A pose landmark (`Landmark` in `pose-comparison.types.ts`):
3D coordinates plus an optional visibility confidence. -/
structure Landmark where
  x : ℝ
  y : ℝ
  z : ℝ
  visibility : Option ℝ

/-- The positional part of a landmark. -/
def Landmark.pos (lm : Landmark) : Point3D := ⟨lm.x, lm.y, lm.z⟩

/-- A frame: an ordered list of landmarks plus a capture timestamp. -/
structure Frame where
  landmarks : List Landmark
  timestamp : ℝ

/-- A video: an ordered list of frames. -/
structure Video where
  frames : List Frame

/-- Default landmark used to make list indexing total; all guarded
accesses in the source are in bounds, so this value is never the one read. -/
def defaultLandmark : Landmark := ⟨0, 0, 0, none⟩

/-- Default frame used to make list indexing total. -/
def defaultFrame : Frame := ⟨[], 0⟩

noncomputable section

/-- `calculateMidpoint` from `pose-comparison.utils.ts`. -/
def calculateMidpoint (p1 p2 : Point3D) : Point3D :=
  ⟨(p1.x + p2.x) / 2, (p1.y + p2.y) / 2, (p1.z + p2.z) / 2⟩

/-- `calculateDistance` from `pose-comparison.utils.ts`:
Euclidean distance between two 3D points. -/
def calculateDistance (p1 p2 : Point3D) : ℝ :=
  let dx := p1.x - p2.x
  let dy := p1.y - p2.y
  let dz := p1.z - p2.z
  Real.sqrt (dx * dx + dy * dy + dz * dz)

/-- `translateLandmarks` from `pose-comparison.utils.ts`: subtract `offset`
from every landmark's coordinates, preserving visibility. -/
def translateLandmarks (landmarks : List Landmark) (offset : Point3D) :
    List Landmark :=
  landmarks.map fun lm =>
    { lm with x := lm.x - offset.x, y := lm.y - offset.y, z := lm.z - offset.z }

/-- `scaleLandmarks` from `pose-comparison.utils.ts`: divide every coordinate
by `factor`; identity when `factor = 0`. -/
def scaleLandmarks (landmarks : List Landmark) (factor : ℝ) : List Landmark :=
  if factor = 0 then landmarks
  else
    landmarks.map fun lm =>
      { lm with x := lm.x / factor, y := lm.y / factor, z := lm.z / factor }

/-- `rotateLandmarksY` from `pose-comparison.utils.ts`: rotate the `x`/`z`
coordinates by `angleRadians` in the horizontal plane. -/
def rotateLandmarksY (landmarks : List Landmark) (angleRadians : ℝ) :
    List Landmark :=
  let c := Real.cos angleRadians
  let s := Real.sin angleRadians
  landmarks.map fun lm =>
    { lm with x := lm.x * c - lm.z * s, z := lm.x * s + lm.z * c }

/-- Vector from `q` to `p` (the `v1`/`v2` construction in
`calculateJointAngle`). -/
def vsub (p q : Point3D) : Point3D := ⟨p.x - q.x, p.y - q.y, p.z - q.z⟩

/-- Dot product of two 3D vectors. -/
def dot3 (u v : Point3D) : ℝ := u.x * v.x + u.y * v.y + u.z * v.z

/-- Magnitude (Euclidean norm) of a 3D vector. -/
def mag3 (u : Point3D) : ℝ := Real.sqrt (u.x * u.x + u.y * u.y + u.z * u.z)

/-- `calculateJointAngle` from `pose-comparison.utils.ts`: the angle at
vertex `point2` between the rays to `point1` and `point3`, in degrees,
via the clamped arccosine of the normalized dot product; 0 when either
vector has zero magnitude. -/
def calculateJointAngle (point1 point2 point3 : Point3D) : ℝ :=
  if mag3 (vsub point1 point2) = 0 ∨ mag3 (vsub point3 point2) = 0 then 0
  else
    Real.arccos (max (-1) (min 1
        (dot3 (vsub point1 point2) (vsub point3 point2) /
          (mag3 (vsub point1 point2) * mag3 (vsub point3 point2))))) *
      180 / Real.pi

/-- Result of `calculateStatistics`. -/
structure ScoringStatistics where
  mean : ℝ
  min : ℝ
  max : ℝ
  variance : ℝ

/-- `calculateStatistics` from `pose-comparison.utils.ts`: mean, min, max and
population variance of a list of numbers; all zero for the empty list. -/
def calculateStatistics (values : List ℝ) : ScoringStatistics :=
  match values with
  | [] => ⟨0, 0, 0, 0⟩
  | v :: vs =>
    let mean : ℝ := (v :: vs).sum / ((v :: vs).length : ℝ)
    let mn := vs.foldl min v
    let mx := vs.foldl max v
    let variance : ℝ :=
      ((v :: vs).map fun val => (val - mean) ^ 2).sum / ((v :: vs).length : ℝ)
    ⟨mean, mn, mx, variance⟩

/-- `centerNormalize` from `pose-comparison.utils.ts`: translate so that the
hip midpoint (landmarks 23/24) becomes the origin; unchanged when the frame
has fewer than 25 landmarks. -/
def centerNormalize (frame : Frame) : Frame :=
  if frame.landmarks.length < 25 then frame
  else
    let leftHip := frame.landmarks.getD 23 defaultLandmark
    let rightHip := frame.landmarks.getD 24 defaultLandmark
    let hipCenter := calculateMidpoint leftHip.pos rightHip.pos
    { frame with landmarks := translateLandmarks frame.landmarks hipCenter }

/-- Shoulder-to-shoulder distance of a frame (landmarks 11/12), as computed
inside `scaleNormalize`. -/
def shoulderWidth (frame : Frame) : ℝ :=
  calculateDistance (frame.landmarks.getD 11 defaultLandmark).pos
    (frame.landmarks.getD 12 defaultLandmark).pos

/-- `scaleNormalize` from `pose-comparison.utils.ts`: divide all coordinates
by the shoulder width; unchanged when the frame has fewer than 13 landmarks
or the shoulder width is exactly 0. -/
def scaleNormalize (frame : Frame) : Frame :=
  if frame.landmarks.length < 13 then frame
  else if shoulderWidth frame = 0 then frame
  else { frame with landmarks := scaleLandmarks frame.landmarks (shoulderWidth frame) }

/-- The two-argument arctangent as computed by `Math.atan2(y, x)`. -/
def atan2 (y x : ℝ) : ℝ :=
  if 0 < x then Real.arctan (y / x)
  else if x < 0 then
    (if 0 ≤ y then Real.arctan (y / x) + Real.pi
     else Real.arctan (y / x) - Real.pi)
  else
    (if 0 < y then Real.pi / 2 else if y < 0 then -(Real.pi / 2) else 0)

/-- `rotationNormalize` from `pose-comparison.utils.ts`: rotate all landmarks
by the negative of the horizontal-plane shoulder-line angle; unchanged when
the frame has fewer than 13 landmarks. -/
def rotationNormalize (frame : Frame) : Frame :=
  if frame.landmarks.length < 13 then frame
  else
    let leftShoulder := frame.landmarks.getD 11 defaultLandmark
    let rightShoulder := frame.landmarks.getD 12 defaultLandmark
    let dx := rightShoulder.x - leftShoulder.x
    let dz := rightShoulder.z - leftShoulder.z
    let angle := atan2 dz dx
    { frame with landmarks := rotateLandmarksY frame.landmarks (-angle) }

/-- `isLandmarkVisible` from `pose-comparison.utils.ts`: a landmark is
visible when it has no visibility value or its value is at least the
threshold. -/
def isLandmarkVisible (landmark : Landmark) (threshold : ℝ) : Bool :=
  match landmark.visibility with
  | none => true
  | some v => decide (threshold ≤ v)

/-- A resolved comparator configuration (the `PoseComparator`'s private
`config` field after merging caller input over the defaults): three
normalization flags, the per-landmark weight table (a partial map, as the
source's `Map<number, number>`), the position/angular blend weights and the
visibility threshold. -/
structure ComparatorConfig where
  center : Bool
  scale : Bool
  rotation : Bool
  landmarkWeights : Nat → Option ℝ
  positionWeight : ℝ
  angularWeight : ℝ
  visibilityThreshold : ℝ

/-- The default landmark-weight table of `DEFAULT_COMPARATOR_CONFIG`
(`pose-comparison.types.ts`): face 0–10 ↦ 0.3, upper body 11–16 ↦ 1.5,
hands 17–22 ↦ 0.8, hips 23–24 ↦ 1.2, lower body 25–32 ↦ 1.8. -/
def defaultLandmarkWeights (i : Nat) : Option ℝ :=
  if i ≤ 10 then some 0.3
  else if i ≤ 16 then some 1.5
  else if i ≤ 22 then some 0.8
  else if i ≤ 24 then some 1.2
  else if i ≤ 32 then some 1.8
  else none

/-- `DEFAULT_COMPARATOR_CONFIG` from `pose-comparison.types.ts`. -/
def defaultConfig : ComparatorConfig :=
  { center := true
    scale := true
    rotation := false
    landmarkWeights := defaultLandmarkWeights
    positionWeight := 0.6
    angularWeight := 0.4
    visibilityThreshold := 0.5 }

/-- `PoseComparator.normalizeFrame`: apply center, then scale, then rotation,
each gated by its configuration flag. -/
def normalizeFrame (cfg : ComparatorConfig) (frame : Frame) : Frame :=
  let n1 := if cfg.center then centerNormalize frame else frame
  let n2 := if cfg.scale then scaleNormalize n1 else n1
  if cfg.rotation then rotationNormalize n2 else n2

/-- The per-landmark weight used by `calculateEuclideanScore`:
`this.config.landmarkWeights.get(i) ?? 1.0`. -/
def landmarkWeight (cfg : ComparatorConfig) (i : Nat) : ℝ :=
  (cfg.landmarkWeights i).getD 1

/-- Whether the landmark pair at index `i` participates in the Euclidean
score (the negation of the `continue` guard in the source's loop). -/
def pairVisible (cfg : ComparatorConfig) (reference comparison : Frame)
    (i : Nat) : Bool :=
  isLandmarkVisible (reference.landmarks.getD i defaultLandmark)
      cfg.visibilityThreshold &&
    isLandmarkVisible (comparison.landmarks.getD i defaultLandmark)
      cfg.visibilityThreshold

/-- Distance between the landmark pair at index `i` of two frames. -/
def pairDistance (reference comparison : Frame) (i : Nat) : ℝ :=
  calculateDistance (reference.landmarks.getD i defaultLandmark).pos
    (comparison.landmarks.getD i defaultLandmark).pos

/-- The accumulator of `calculateEuclideanScore`'s `for` loop, rendered as a
`foldl` over the index range: the pair
(`totalWeightedDistance`, `totalWeight`), skipping pairs below the
visibility threshold. -/
def euclidAcc (cfg : ComparatorConfig) (reference comparison : Frame) :
    ℝ × ℝ :=
  (List.range
      (min reference.landmarks.length comparison.landmarks.length)).foldl
    (fun (acc : ℝ × ℝ) i =>
      if pairVisible cfg reference comparison i then
        (acc.1 + pairDistance reference comparison i * landmarkWeight cfg i,
         acc.2 + landmarkWeight cfg i)
      else acc)
    (0, 0)

/-- `PoseComparator.calculateEuclideanScore`: weighted visibility-filtered
mean landmark distance mapped through `100·e^(−2·d̄)` and clamped to
[0, 100]; 0 when either frame is empty or the accumulated weight is 0. -/
def calculateEuclideanScore (cfg : ComparatorConfig)
    (reference comparison : Frame) : ℝ :=
  if reference.landmarks.length = 0 ∨ comparison.landmarks.length = 0 then 0
  else if (euclidAcc cfg reference comparison).2 = 0 then 0
  else
    max 0 (min 100 (100 * Real.exp (-(2 *
      ((euclidAcc cfg reference comparison).1 /
        (euclidAcc cfg reference comparison).2)))))

/-- The six key joints of `calculateAngularScore`, each a triple of
landmark indices. -/
def keyJoints : List (Nat × Nat × Nat) :=
  [(11, 13, 15), (12, 14, 16), (23, 25, 27), (24, 26, 28),
   (11, 23, 25), (12, 24, 26)]

/-- Whether all three landmarks of a joint pass the visibility threshold in
a frame (the `refVisible`/`compVisible` checks of `calculateAngularScore`). -/
def jointVisible (cfg : ComparatorConfig) (frame : Frame)
    (j : Nat × Nat × Nat) : Bool :=
  isLandmarkVisible (frame.landmarks.getD j.1 defaultLandmark)
      cfg.visibilityThreshold &&
    isLandmarkVisible (frame.landmarks.getD j.2.1 defaultLandmark)
      cfg.visibilityThreshold &&
    isLandmarkVisible (frame.landmarks.getD j.2.2 defaultLandmark)
      cfg.visibilityThreshold

/-- The joint angle of a frame at a triple of landmark indices. -/
def frameJointAngle (frame : Frame) (j : Nat × Nat × Nat) : ℝ :=
  calculateJointAngle (frame.landmarks.getD j.1 defaultLandmark).pos
    (frame.landmarks.getD j.2.1 defaultLandmark).pos
    (frame.landmarks.getD j.2.2 defaultLandmark).pos

/-- Absolute difference of a joint's angle between two frames. -/
def jointAngleDiff (reference comparison : Frame) (j : Nat × Nat × Nat) : ℝ :=
  |frameJointAngle reference j - frameJointAngle comparison j|

/-- The accumulator of `calculateAngularScore`'s loop over the key joints:
the pair (`totalAngleDifference`, `validJointCount`), skipping joints whose
landmarks fail the visibility threshold in either frame. -/
def angularAcc (cfg : ComparatorConfig) (reference comparison : Frame) :
    ℝ × ℝ :=
  keyJoints.foldl
    (fun (acc : ℝ × ℝ) j =>
      if jointVisible cfg reference j && jointVisible cfg comparison j then
        (acc.1 + jointAngleDiff reference comparison j, acc.2 + 1)
      else acc)
    (0, 0)

/-- `PoseComparator.calculateAngularScore`: 0 when either frame has fewer
than 33 landmarks; otherwise the average absolute joint-angle difference
over the visibility-qualified key joints mapped through
`100·(1 − avg/180)` and clamped to [0, 100]; 0 when no joint qualifies. -/
def calculateAngularScore (cfg : ComparatorConfig)
    (reference comparison : Frame) : ℝ :=
  if reference.landmarks.length < 33 ∨ comparison.landmarks.length < 33 then 0
  else if (angularAcc cfg reference comparison).2 = 0 then 0
  else
    max 0 (min 100 (100 * (1 -
      ((angularAcc cfg reference comparison).1 /
        (angularAcc cfg reference comparison).2) / 180)))

/-- `PoseComparator.compareFrames`: the weighted blend of the position and
angular scores of a frame pair. -/
def compareFrames (cfg : ComparatorConfig) (reference comparison : Frame) : ℝ :=
  calculateEuclideanScore cfg reference comparison * cfg.positionWeight +
    calculateAngularScore cfg reference comparison * cfg.angularWeight

/-- `PoseComparator.calculateTimingScore`: `min/max × 100` of the two frame
counts; 0 when either count is 0. -/
def calculateTimingScore (referenceLength comparisonLength : Nat) : ℝ :=
  if referenceLength = 0 ∨ comparisonLength = 0 then 0
  else
    ((min referenceLength comparisonLength : ℝ) /
      (max referenceLength comparisonLength : ℝ)) * 100

/-- The `breakdown` field of a `ScoringResult`. -/
structure ScoringBreakdown where
  positionScore : ℝ
  angularScore : ℝ
  timingScore : ℝ
  statistics : ScoringStatistics

/-- `ScoringResult` from `pose-comparison.types.ts`. -/
structure ScoringResult where
  overallScore : ℝ
  frameScores : List ℝ
  breakdown : ScoringBreakdown

/-- The zeroed result returned for empty input. -/
def zeroResult : ScoringResult := ⟨0, [], ⟨0, 0, 0, ⟨0, 0, 0, 0⟩⟩⟩

/-- The i-th normalized frame pair compared by `compareVideos`. -/
def normalizedPair (cfg : ComparatorConfig) (reference comparison : Video)
    (i : Nat) : Frame × Frame :=
  (normalizeFrame cfg (reference.frames.getD i defaultFrame),
   normalizeFrame cfg (comparison.frames.getD i defaultFrame))

/-- `PoseComparator.compareVideos`: the zeroed result when either video is
empty; otherwise per-index normalization and scoring over the first
`min(|ref|, |comp|)` frame pairs, with the timing score computed from the
original lengths and `overallScore` taken from the statistics' mean. The
source's loop (push to `frameScores`, accumulate the two component totals)
is rendered as maps and sums over the index range. -/
def compareVideos (cfg : ComparatorConfig) (reference comparison : Video) :
    ScoringResult :=
  let minLength := min reference.frames.length comparison.frames.length
  if minLength = 0 then zeroResult
  else
    let frameScores := (List.range minLength).map fun i =>
      compareFrames cfg (normalizedPair cfg reference comparison i).1
        (normalizedPair cfg reference comparison i).2
    let totalPositionScore := ((List.range minLength).map fun i =>
      calculateEuclideanScore cfg (normalizedPair cfg reference comparison i).1
        (normalizedPair cfg reference comparison i).2).sum
    let totalAngularScore := ((List.range minLength).map fun i =>
      calculateAngularScore cfg (normalizedPair cfg reference comparison i).1
        (normalizedPair cfg reference comparison i).2).sum
    let timingScore := calculateTimingScore reference.frames.length
      comparison.frames.length
    let statistics := calculateStatistics frameScores
    { overallScore := statistics.mean
      frameScores := frameScores
      breakdown :=
        { positionScore := totalPositionScore / (minLength : ℝ)
          angularScore := totalAngularScore / (minLength : ℝ)
          timingScore := timingScore
          statistics := statistics } }

/-- Add a constant 3D offset to a landmark's coordinates (the uniform shift
quantified over by the translation-invariance property). -/
def shiftLandmark (off : Point3D) (lm : Landmark) : Landmark :=
  { lm with x := lm.x + off.x, y := lm.y + off.y, z := lm.z + off.z }

/-- Add a constant 3D offset to every landmark of a frame. -/
def shiftFrame (off : Point3D) (f : Frame) : Frame :=
  ⟨f.landmarks.map (shiftLandmark off), f.timestamp⟩

/-- Add a constant 3D offset to every landmark of every frame of a video. -/
def shiftVideo (off : Point3D) (v : Video) : Video :=
  ⟨v.frames.map (shiftFrame off)⟩

/-- The indices whose landmark pairs are accumulated by
`calculateEuclideanScore`: indices below the shorter landmark count at which
both landmarks pass the visibility threshold. -/
def includedIndices (cfg : ComparatorConfig) (reference comparison : Frame) :
    List Nat :=
  (List.range
      (min reference.landmarks.length comparison.landmarks.length)).filter
    (pairVisible cfg reference comparison)

/-- The total weight accumulated by `calculateEuclideanScore`. -/
def totalWeight (cfg : ComparatorConfig) (reference comparison : Frame) : ℝ :=
  ((includedIndices cfg reference comparison).map (landmarkWeight cfg)).sum

/-- The total distance×weight accumulated by `calculateEuclideanScore`. -/
def totalWeightedDistance (cfg : ComparatorConfig)
    (reference comparison : Frame) : ℝ :=
  ((includedIndices cfg reference comparison).map fun i =>
      pairDistance reference comparison i * landmarkWeight cfg i).sum

/-- The joints whose angle differences are accumulated by
`calculateAngularScore`: the key joints at which all three landmarks pass
the visibility threshold in both frames. -/
def includedJoints (cfg : ComparatorConfig) (reference comparison : Frame) :
    List (Nat × Nat × Nat) :=
  keyJoints.filter fun j =>
    jointVisible cfg reference j && jointVisible cfg comparison j

/-- The total absolute joint-angle difference accumulated by
`calculateAngularScore`. -/
def totalAngleDifference (cfg : ComparatorConfig)
    (reference comparison : Frame) : ℝ :=
  ((includedJoints cfg reference comparison).map
      (jointAngleDiff reference comparison)).sum

/-- A frame with a single landmark at the origin. -/
def oneLandmarkFrame : Frame := ⟨[⟨0, 0, 0, none⟩], 0⟩

/-- A frame with the canonical 33 landmarks, all at the origin and without
a visibility value. -/
def frame33 : Frame := ⟨List.replicate 33 ⟨0, 0, 0, none⟩, 0⟩

/-- A one-frame video whose single frame has one landmark at the origin. -/
def oneLandmarkVideo : Video := ⟨[oneLandmarkFrame]⟩

/-- A one-frame video whose single frame has 25 landmarks (hips present,
so centering applies). -/
def video25 : Video := ⟨[⟨List.replicate 25 ⟨0, 0, 0, none⟩, 0⟩]⟩

/-- A three-frame video of empty frames. -/
def video3 : Video := ⟨List.replicate 3 defaultFrame⟩

/-- A one-frame video of an empty frame. -/
def video1 : Video := ⟨[defaultFrame]⟩

/-- The empty video. -/
def emptyVideo : Video := ⟨[]⟩

end

/-! ## Helper lemmas -/

theorem foldl_pair_filter {α : Type} (p : α → Bool) (f g : α → ℝ)
    (l : List α) : ∀ a b : ℝ,
    l.foldl (fun acc x => if p x then (acc.1 + f x, acc.2 + g x) else acc)
        (a, b) =
      (a + ((l.filter p).map f).sum, b + ((l.filter p).map g).sum) := by
  induction l with
  | nil => intro a b; simp
  | cons x xs ih =>
    intro a b
    by_cases h : p x
    · simp only [List.foldl_cons, h, if_pos, List.filter_cons_of_pos,
        List.map_cons, List.sum_cons, ih]
      simp only [Prod.mk.injEq]
      constructor <;> ring
    · simp [h, ih]

theorem foldl_min_le (vs : List ℝ) :
    ∀ v : ℝ, ∀ x ∈ v :: vs, vs.foldl min v ≤ x := by
  induction vs with
  | nil => intro v x hx; simp only [List.mem_singleton] at hx; simp [hx]
  | cons w ws ih =>
    intro v x hx
    simp only [List.foldl_cons]
    rcases List.mem_cons.mp hx with h1 | hx2
    · rw [h1]
      exact le_trans (ih (min v w) _ (List.mem_cons_self _ _)) (min_le_left _ _)
    rcases List.mem_cons.mp hx2 with h2 | hx3
    · rw [h2]
      exact le_trans (ih (min v w) _ (List.mem_cons_self _ _)) (min_le_right _ _)
    · exact ih (min v w) _ (List.mem_cons_of_mem _ hx3)

theorem foldl_min_mem (vs : List ℝ) : ∀ v : ℝ, vs.foldl min v ∈ v :: vs := by
  induction vs with
  | nil => intro v; simp
  | cons w ws ih =>
    intro v
    simp only [List.foldl_cons]
    rcases List.mem_cons.mp (ih (min v w)) with h | h
    · rcases min_choice v w with h2 | h2 <;> rw [h, h2] <;> simp
    · exact List.mem_cons_of_mem _ (List.mem_cons_of_mem _ h)

theorem foldl_le_max (vs : List ℝ) :
    ∀ v : ℝ, ∀ x ∈ v :: vs, x ≤ vs.foldl max v := by
  induction vs with
  | nil => intro v x hx; simp only [List.mem_singleton] at hx; simp [hx]
  | cons w ws ih =>
    intro v x hx
    simp only [List.foldl_cons]
    rcases List.mem_cons.mp hx with h1 | hx2
    · rw [h1]
      exact le_trans (le_max_left _ _) (ih (max v w) _ (List.mem_cons_self _ _))
    rcases List.mem_cons.mp hx2 with h2 | hx3
    · rw [h2]
      exact le_trans (le_max_right _ _)
        (ih (max v w) _ (List.mem_cons_self _ _))
    · exact ih (max v w) _ (List.mem_cons_of_mem _ hx3)

theorem foldl_max_mem (vs : List ℝ) : ∀ v : ℝ, vs.foldl max v ∈ v :: vs := by
  induction vs with
  | nil => intro v; simp
  | cons w ws ih =>
    intro v
    simp only [List.foldl_cons]
    rcases List.mem_cons.mp (ih (max v w)) with h | h
    · rcases max_choice v w with h2 | h2 <;> rw [h, h2] <;> simp
    · exact List.mem_cons_of_mem _ (List.mem_cons_of_mem _ h)

theorem calculateStatistics_mean (values : List ℝ) (h : values ≠ []) :
    (calculateStatistics values).mean = values.sum / (values.length : ℝ) := by
  cases values with
  | nil => exact absurd rfl h
  | cons v vs => rfl

theorem getD_map_of_lt {α β : Type} (f : α → β) (l : List α) (i : Nat)
    (d : β) (d2 : α) (h : i < l.length) :
    (l.map f).getD i d = f (l.getD i d2) := by
  rw [List.getD_eq_getElem?_getD, List.getD_eq_getElem?_getD,
    List.getElem?_map, List.getElem?_eq_getElem h]
  rfl

theorem getD_range_map (f : ℕ → ℝ) (n i : ℕ) (h : i < n) :
    ((List.range n).map f).getD i 0 = f i := by
  rw [getD_map_of_lt f (List.range n) i 0 0 (by simpa using h)]
  congr 1
  rw [List.getD_eq_getElem?_getD, List.getElem?_range h]
  rfl

theorem getD_mem {α : Type} (l : List α) (i : Nat) (d : α)
    (h : i < l.length) : l.getD i d ∈ l := by
  rw [List.getD_eq_getElem?_getD, List.getElem?_eq_getElem h]
  exact List.getElem_mem h

theorem sum_map_one {α : Type} (l : List α) :
    (l.map fun _ => (1 : ℝ)).sum = (l.length : ℝ) := by
  induction l with
  | nil => simp
  | cons x xs ih => simp [ih]; ring

theorem mag3_nonneg (u : Point3D) : 0 ≤ mag3 u := Real.sqrt_nonneg _

theorem mag3_mul_self (u : Point3D) :
    mag3 u * mag3 u = u.x * u.x + u.y * u.y + u.z * u.z :=
  Real.mul_self_sqrt
    (by nlinarith [mul_self_nonneg u.x, mul_self_nonneg u.y,
      mul_self_nonneg u.z])

theorem mag3_smul (t : ℝ) (v : Point3D) :
    mag3 ⟨t * v.x, t * v.y, t * v.z⟩ = |t| * mag3 v := by
  unfold mag3
  rw [show t * v.x * (t * v.x) + t * v.y * (t * v.y) + t * v.z * (t * v.z) =
    t ^ 2 * (v.x * v.x + v.y * v.y + v.z * v.z) from by ring]
  rw [Real.sqrt_mul (sq_nonneg t), Real.sqrt_sq_eq_abs]

/-! ## Claims -/

/-- C2: whenever at least one of the two videos has zero frames,
`compareVideos` returns the zeroed result — `overallScore = 0`, empty
`frameScores`, and every breakdown field (position, angular, timing and all
four statistics) equal to 0; being a total function it raises no error. -/
theorem claim_C2_empty_video_zero_result (cfg : ComparatorConfig)
    (reference comparison : Video)
    (h : reference.frames.length = 0 ∨ comparison.frames.length = 0) :
    (compareVideos cfg reference comparison).overallScore = 0 ∧
    (compareVideos cfg reference comparison).frameScores = [] ∧
    (compareVideos cfg reference comparison).breakdown.positionScore = 0 ∧
    (compareVideos cfg reference comparison).breakdown.angularScore = 0 ∧
    (compareVideos cfg reference comparison).breakdown.timingScore = 0 ∧
    (compareVideos cfg reference comparison).breakdown.statistics =
      ⟨0, 0, 0, 0⟩ := by
  have hmin : min reference.frames.length comparison.frames.length = 0 := by
    rcases h with h | h <;> simp [h]
  simp [compareVideos, hmin, zeroResult]

theorem claim_C2_witness :
    (emptyVideo.frames.length = 0 ∨ video1.frames.length = 0) ∧
    (compareVideos defaultConfig emptyVideo video1).overallScore = 0 ∧
    (compareVideos defaultConfig emptyVideo video1).frameScores = [] ∧
    (compareVideos defaultConfig emptyVideo video1).breakdown.positionScore
      = 0 ∧
    (compareVideos defaultConfig emptyVideo video1).breakdown.angularScore
      = 0 ∧
    (compareVideos defaultConfig emptyVideo video1).breakdown.timingScore
      = 0 ∧
    (compareVideos defaultConfig emptyVideo video1).breakdown.statistics =
      ⟨0, 0, 0, 0⟩ :=
  ⟨Or.inl rfl,
    claim_C2_empty_video_zero_result defaultConfig emptyVideo video1
      (Or.inl rfl)⟩

/-- C6: `normalizeFrame` applies center, then scale, then rotation, each
only when its flag is set; `centerNormalize` is the identity below 25
landmarks, `scaleNormalize` below 13 landmarks or at exactly zero shoulder
width, `rotationNormalize` below 13 landmarks; and the landmark indices the
transforms read (23/24, 11/12) are in bounds whenever the corresponding
guard passes, so no access is out of bounds and (the functions being total)
no error is raised. -/
theorem claim_C6_normalization_safety (cfg : ComparatorConfig) (f : Frame) :
    (f.landmarks.length < 25 → centerNormalize f = f) ∧
    (f.landmarks.length < 13 ∨ shoulderWidth f = 0 → scaleNormalize f = f) ∧
    (f.landmarks.length < 13 → rotationNormalize f = f) ∧
    (normalizeFrame cfg f =
      (cond cfg.rotation rotationNormalize id)
        ((cond cfg.scale scaleNormalize id)
          ((cond cfg.center centerNormalize id) f))) ∧
    (25 ≤ f.landmarks.length →
      23 < f.landmarks.length ∧ 24 < f.landmarks.length) ∧
    (13 ≤ f.landmarks.length →
      11 < f.landmarks.length ∧ 12 < f.landmarks.length) := by
  refine ⟨?_, ?_, ?_, ?_, ?_, ?_⟩
  · intro h; simp [centerNormalize, h]
  · rintro (h | h)
    · simp [scaleNormalize, h]
    · by_cases h13 : f.landmarks.length < 13 <;> simp [scaleNormalize, h13, h]
  · intro h; simp [rotationNormalize, h]
  · cases hc : cfg.center <;> cases hs : cfg.scale <;>
      cases hr : cfg.rotation <;> simp [normalizeFrame, hc, hs, hr]
  · omega
  · omega

theorem claim_C6_witness :
    centerNormalize defaultFrame = defaultFrame ∧
    scaleNormalize defaultFrame = defaultFrame ∧
    rotationNormalize defaultFrame = defaultFrame :=
  ⟨(claim_C6_normalization_safety defaultConfig defaultFrame).1
      (by simp [defaultFrame]),
    (claim_C6_normalization_safety defaultConfig defaultFrame).2.1
      (Or.inl (by simp [defaultFrame])),
    (claim_C6_normalization_safety defaultConfig defaultFrame).2.2.1
      (by simp [defaultFrame])⟩

/-- C8: `calculateStatistics` returns the population mean, the minimum, the
maximum and the population variance (sum of squared deviations divided by
`n`, not `n − 1`) of its input; on the empty list all four are 0. -/
theorem claim_C8_statistics (values : List ℝ) :
    (values = [] → calculateStatistics values = ⟨0, 0, 0, 0⟩) ∧
    (values ≠ [] →
      (calculateStatistics values).mean =
          values.sum / (values.length : ℝ) ∧
        (calculateStatistics values).variance =
          (values.map fun x =>
              (x - values.sum / (values.length : ℝ)) ^ 2).sum /
            (values.length : ℝ) ∧
        (calculateStatistics values).min ∈ values ∧
        (∀ x ∈ values, (calculateStatistics values).min ≤ x) ∧
        (calculateStatistics values).max ∈ values ∧
        (∀ x ∈ values, x ≤ (calculateStatistics values).max)) := by
  constructor
  · rintro rfl; rfl
  · intro h
    cases values with
    | nil => exact absurd rfl h
    | cons v vs =>
      refine ⟨rfl, rfl, ?_, ?_, ?_, ?_⟩
      · exact foldl_min_mem vs v
      · exact foldl_min_le vs v
      · exact foldl_max_mem vs v
      · exact foldl_le_max vs v

theorem claim_C8_statistics_witness :
    ((3 : ℝ) :: [1, 2] ≠ []) ∧
    (calculateStatistics ((3 : ℝ) :: [1, 2])).mean =
        ((3 : ℝ) :: [1, 2]).sum / ((((3 : ℝ) :: [1, 2]).length : ℕ) : ℝ) ∧
      (calculateStatistics ((3 : ℝ) :: [1, 2])).variance =
        (((3 : ℝ) :: [1, 2]).map fun x =>
            (x - ((3 : ℝ) :: [1, 2]).sum /
              ((((3 : ℝ) :: [1, 2]).length : ℕ) : ℝ)) ^ 2).sum /
          ((((3 : ℝ) :: [1, 2]).length : ℕ) : ℝ) ∧
      (calculateStatistics ((3 : ℝ) :: [1, 2])).min ∈ (3 : ℝ) :: [1, 2] ∧
      (∀ x ∈ (3 : ℝ) :: [1, 2],
        (calculateStatistics ((3 : ℝ) :: [1, 2])).min ≤ x) ∧
      (calculateStatistics ((3 : ℝ) :: [1, 2])).max ∈ (3 : ℝ) :: [1, 2] ∧
      (∀ x ∈ (3 : ℝ) :: [1, 2],
        x ≤ (calculateStatistics ((3 : ℝ) :: [1, 2])).max) :=
  ⟨by simp,
    (claim_C8_statistics ((3 : ℝ) :: [1, 2])).2 (by simp)⟩

/-- C5: the timing score of `compareVideos` is
`min(refLen, compLen)/max(refLen, compLen) × 100` computed from the original
(untruncated) frame counts, is 0 when either video has zero frames, equals
100 exactly when the two lengths are equal and nonzero, and for lengths 3
and 1 equals `100/3` while `frameScores` has length 1. -/
theorem claim_C5_timing_score (cfg : ComparatorConfig)
    (reference comparison : Video) :
    ((compareVideos cfg reference comparison).breakdown.timingScore =
      calculateTimingScore reference.frames.length comparison.frames.length) ∧
    (reference.frames.length = 0 ∨ comparison.frames.length = 0 →
      calculateTimingScore reference.frames.length comparison.frames.length
        = 0) ∧
    (calculateTimingScore reference.frames.length comparison.frames.length
        = 100 ↔
      reference.frames.length = comparison.frames.length ∧
        reference.frames.length ≠ 0) ∧
    (reference.frames.length = 3 → comparison.frames.length = 1 →
      calculateTimingScore reference.frames.length comparison.frames.length
          = 100 / 3 ∧
        (compareVideos cfg reference comparison).frameScores.length = 1) := by
  refine ⟨?_, ?_, ?_, ?_⟩
  · by_cases hmin :
      min reference.frames.length comparison.frames.length = 0
    · have h0 : reference.frames.length = 0 ∨ comparison.frames.length = 0 :=
        by omega
      have ht : calculateTimingScore reference.frames.length
          comparison.frames.length = 0 := by
        rw [calculateTimingScore, if_pos h0]
      simp [compareVideos, hmin, zeroResult, ht]
    · simp [compareVideos, hmin]
  · intro h
    rw [calculateTimingScore, if_pos h]
  · constructor
    · intro h
      by_cases h0 : reference.frames.length = 0 ∨ comparison.frames.length = 0
      · rw [calculateTimingScore, if_pos h0] at h
        norm_num at h
      · push_neg at h0
        rw [calculateTimingScore, if_neg (by tauto)] at h
        have hmaxpos : (0 : ℝ) <
            max (reference.frames.length : ℝ)
              (comparison.frames.length : ℝ) := by
          have hp : (0 : ℝ) < (reference.frames.length : ℝ) := by
            exact_mod_cast Nat.pos_of_ne_zero h0.1
          exact lt_of_lt_of_le hp (le_max_left _ _)
        rw [div_mul_eq_mul_div, div_eq_iff (ne_of_gt hmaxpos)] at h
        have hs : min (reference.frames.length : ℝ)
              (comparison.frames.length : ℝ) =
            max (reference.frames.length : ℝ)
              (comparison.frames.length : ℝ) := by
          linarith
        have hmm : min reference.frames.length comparison.frames.length =
            max reference.frames.length comparison.frames.length := by
          exact_mod_cast hs
        exact ⟨by omega, h0.1⟩
    · rintro ⟨heq, hne⟩
      rw [calculateTimingScore, if_neg (by omega)]
      rw [heq]
      simp only [min_self, max_self]
      have : ((comparison.frames.length : ℕ) : ℝ) ≠ 0 := by
        have : comparison.frames.length ≠ 0 := by omega
        exact_mod_cast this
      field_simp
  · intro h3 h1
    constructor
    · rw [h3, h1]
      rw [calculateTimingScore, if_neg (by omega)]
      norm_num
    · have hmin : min reference.frames.length comparison.frames.length = 1 :=
        by omega
      simp [compareVideos, hmin]

theorem claim_C5_timing_witness :
    calculateTimingScore video3.frames.length video1.frames.length
        = 100 / 3 ∧
      (compareVideos defaultConfig video3 video1).frameScores.length = 1 :=
  (claim_C5_timing_score defaultConfig video3 video1).2.2.2
    (by simp [video3]) (by simp [video1])

/-- C1: for videos with both frame counts nonzero, `compareVideos` produces
`frameScores` of length `n = min(|ref|, |comp|)`, whose i-th entry is the
combined score `position·positionWeight + angular·angularWeight` of the
i-th normalized frame pair, and whose `overallScore` is the mean of
`frameScores` — in particular the timing score is not folded into
`overallScore`. -/
theorem claim_C1_compare_videos_structure (cfg : ComparatorConfig)
    (reference comparison : Video) (h1 : reference.frames.length ≠ 0)
    (h2 : comparison.frames.length ≠ 0) :
    (compareVideos cfg reference comparison).frameScores.length =
      min reference.frames.length comparison.frames.length ∧
    (∀ i < min reference.frames.length comparison.frames.length,
      (compareVideos cfg reference comparison).frameScores.getD i 0 =
        calculateEuclideanScore cfg
            (normalizedPair cfg reference comparison i).1
            (normalizedPair cfg reference comparison i).2 *
            cfg.positionWeight +
          calculateAngularScore cfg
            (normalizedPair cfg reference comparison i).1
            (normalizedPair cfg reference comparison i).2 *
            cfg.angularWeight) ∧
    (compareVideos cfg reference comparison).overallScore =
      (compareVideos cfg reference comparison).frameScores.sum /
        (((compareVideos cfg reference comparison).frameScores.length : ℕ) :
          ℝ) := by
  have hn : min reference.frames.length comparison.frames.length ≠ 0 := by
    omega
  have hrw : (compareVideos cfg reference comparison).frameScores =
      (List.range
          (min reference.frames.length comparison.frames.length)).map
        fun i =>
          compareFrames cfg (normalizedPair cfg reference comparison i).1
            (normalizedPair cfg reference comparison i).2 := by
    simp [compareVideos, hn]
  refine ⟨?_, ?_, ?_⟩
  · rw [hrw]; simp
  · intro i hi
    rw [hrw, getD_range_map _ _ _ hi]
    simp [compareFrames]
  · have hne : (compareVideos cfg reference comparison).frameScores ≠ [] := by
      rw [hrw]
      intro hemp
      have hlen := congrArg List.length hemp
      rw [List.length_map, List.length_range] at hlen
      simp only [List.length_nil] at hlen
      exact hn hlen
    have hov : (compareVideos cfg reference comparison).overallScore =
        (calculateStatistics
          (compareVideos cfg reference comparison).frameScores).mean := by
      simp [compareVideos, hn]
    rw [hov, calculateStatistics_mean _ hne]

theorem claim_C1_compare_videos_witness :
    (video1.frames.length ≠ 0 ∧ oneLandmarkVideo.frames.length ≠ 0) ∧
    ((compareVideos defaultConfig video1 oneLandmarkVideo).frameScores.length
        = min video1.frames.length oneLandmarkVideo.frames.length ∧
      (∀ i < min video1.frames.length oneLandmarkVideo.frames.length,
        (compareVideos defaultConfig video1
              oneLandmarkVideo).frameScores.getD i 0 =
          calculateEuclideanScore defaultConfig
              (normalizedPair defaultConfig video1 oneLandmarkVideo i).1
              (normalizedPair defaultConfig video1 oneLandmarkVideo i).2 *
              defaultConfig.positionWeight +
            calculateAngularScore defaultConfig
              (normalizedPair defaultConfig video1 oneLandmarkVideo i).1
              (normalizedPair defaultConfig video1 oneLandmarkVideo i).2 *
              defaultConfig.angularWeight) ∧
      (compareVideos defaultConfig video1 oneLandmarkVideo).overallScore =
        (compareVideos defaultConfig video1 oneLandmarkVideo).frameScores.sum
          / (((compareVideos defaultConfig video1
              oneLandmarkVideo).frameScores.length : ℕ) : ℝ)) :=
  ⟨⟨by simp [video1], by simp [oneLandmarkVideo]⟩,
    claim_C1_compare_videos_structure defaultConfig video1 oneLandmarkVideo
      (by simp [video1]) (by simp [oneLandmarkVideo])⟩

theorem euclidAcc_eq (cfg : ComparatorConfig) (reference comparison : Frame) :
    euclidAcc cfg reference comparison =
      (totalWeightedDistance cfg reference comparison,
       totalWeight cfg reference comparison) := by
  unfold euclidAcc
  rw [foldl_pair_filter (pairVisible cfg reference comparison)
    (fun i => pairDistance reference comparison i * landmarkWeight cfg i)
    (landmarkWeight cfg)
    (List.range (min reference.landmarks.length comparison.landmarks.length))
    0 0]
  simp [totalWeightedDistance, totalWeight, includedIndices]

theorem angularAcc_eq (cfg : ComparatorConfig)
    (reference comparison : Frame) :
    angularAcc cfg reference comparison =
      (totalAngleDifference cfg reference comparison,
       ((includedJoints cfg reference comparison).length : ℝ)) := by
  unfold angularAcc
  rw [foldl_pair_filter
    (fun j => jointVisible cfg reference j && jointVisible cfg comparison j)
    (jointAngleDiff reference comparison) (fun _ => (1 : ℝ)) keyJoints 0 0]
  simp [totalAngleDifference, includedJoints, sum_map_one]

/-- C3: the per-frame position score accumulates `distance × weight` and
`weight` over the indices below the shorter landmark count at which both
landmarks pass the visibility threshold (the weight coming from
`landmarkWeights` with default 1.0); it is 0 when the total accumulated
weight is 0 (all pairs skipped, or either frame empty), and otherwise
equals `100·e^(−2·d̄)` of the weighted mean distance, clamped to
[0, 100]. -/
theorem claim_C3_position_score (cfg : ComparatorConfig)
    (reference comparison : Frame) :
    (reference.landmarks = [] ∨ comparison.landmarks = [] →
      calculateEuclideanScore cfg reference comparison = 0) ∧
    (totalWeight cfg reference comparison = 0 →
      calculateEuclideanScore cfg reference comparison = 0) ∧
    (totalWeight cfg reference comparison ≠ 0 →
      calculateEuclideanScore cfg reference comparison =
        max 0 (min 100 (100 * Real.exp (-(2 *
          (totalWeightedDistance cfg reference comparison /
            totalWeight cfg reference comparison)))))) := by
  have hacc := euclidAcc_eq cfg reference comparison
  refine ⟨?_, ?_, ?_⟩
  · intro h
    have h0 : reference.landmarks.length = 0 ∨
        comparison.landmarks.length = 0 := by
      rcases h with h | h
      · exact Or.inl (by rw [h]; rfl)
      · exact Or.inr (by rw [h]; rfl)
    unfold calculateEuclideanScore
    rw [if_pos h0]
  · intro hw
    by_cases h0 : reference.landmarks.length = 0 ∨
        comparison.landmarks.length = 0
    · unfold calculateEuclideanScore
      rw [if_pos h0]
    · unfold calculateEuclideanScore
      rw [if_neg h0, hacc]
      simp [hw]
  · intro hw
    have h0 : ¬ (reference.landmarks.length = 0 ∨
        comparison.landmarks.length = 0) := by
      intro h0
      apply hw
      have hmin : min reference.landmarks.length
          comparison.landmarks.length = 0 := by omega
      simp [totalWeight, includedIndices, hmin]
    unfold calculateEuclideanScore
    rw [if_neg h0, hacc]
    simp [hw]

theorem claim_C3_position_witness :
    totalWeight defaultConfig oneLandmarkFrame oneLandmarkFrame ≠ 0 ∧
    calculateEuclideanScore defaultConfig oneLandmarkFrame oneLandmarkFrame =
      max 0 (min 100 (100 * Real.exp (-(2 *
        (totalWeightedDistance defaultConfig oneLandmarkFrame
            oneLandmarkFrame /
          totalWeight defaultConfig oneLandmarkFrame oneLandmarkFrame))))) := by
  have hw : totalWeight defaultConfig oneLandmarkFrame oneLandmarkFrame
      ≠ 0 := by
    have h1 : totalWeight defaultConfig oneLandmarkFrame oneLandmarkFrame =
        0.3 := by
      simp [totalWeight, includedIndices, oneLandmarkFrame, pairVisible,
        isLandmarkVisible, landmarkWeight, defaultLandmarkWeights,
        defaultConfig, defaultLandmark, show List.range 1 = [0] from rfl,
        List.getD_cons_zero]
    rw [h1]; norm_num
  exact ⟨hw,
    (claim_C3_position_score defaultConfig oneLandmarkFrame
      oneLandmarkFrame).2.2 hw⟩

/-- C4: the angular score is 0 whenever either frame has fewer than 33
landmarks; otherwise it evaluates exactly the six fixed joints
(11,13,15), (12,14,16), (23,25,27), (24,26,28), (11,23,25), (12,24,26),
includes a joint only if all three of its landmarks pass the visibility
threshold in both frames, is 0 when no joint qualifies, and otherwise maps
the average absolute joint-angle difference over the included joints to
`100·(1 − avg/180)`, clamped to [0, 100]. -/
theorem claim_C4_angular_score (cfg : ComparatorConfig)
    (reference comparison : Frame) :
    keyJoints = [(11, 13, 15), (12, 14, 16), (23, 25, 27), (24, 26, 28),
      (11, 23, 25), (12, 24, 26)] ∧
    (reference.landmarks.length < 33 ∨ comparison.landmarks.length < 33 →
      calculateAngularScore cfg reference comparison = 0) ∧
    (¬ (reference.landmarks.length < 33 ∨
        comparison.landmarks.length < 33) →
      (includedJoints cfg reference comparison = [] →
        calculateAngularScore cfg reference comparison = 0) ∧
      (includedJoints cfg reference comparison ≠ [] →
        calculateAngularScore cfg reference comparison =
          max 0 (min 100 (100 * (1 -
            (totalAngleDifference cfg reference comparison /
              ((includedJoints cfg reference comparison).length : ℝ)) /
            180))))) := by
  refine ⟨rfl, ?_, ?_⟩
  · intro h
    unfold calculateAngularScore
    rw [if_pos h]
  · intro h33
    constructor
    · intro hemp
      unfold calculateAngularScore
      rw [if_neg h33, angularAcc_eq]
      simp [hemp]
    · intro hne
      have hlen : ((includedJoints cfg reference comparison).length : ℝ)
          ≠ 0 := by
        have : (includedJoints cfg reference comparison).length ≠ 0 :=
          fun h => hne (List.length_eq_zero.mp h)
        exact_mod_cast this
      unfold calculateAngularScore
      rw [if_neg h33, angularAcc_eq]
      simp [hlen]

theorem claim_C4_angular_witness :
    (¬ (frame33.landmarks.length < 33 ∨ frame33.landmarks.length < 33)) ∧
    includedJoints defaultConfig frame33 frame33 ≠ [] ∧
    calculateAngularScore defaultConfig frame33 frame33 =
      max 0 (min 100 (100 * (1 -
        (totalAngleDifference defaultConfig frame33 frame33 /
          ((includedJoints defaultConfig frame33 frame33).length : ℝ)) /
        180))) := by
  have h33 : ¬ (frame33.landmarks.length < 33 ∨
      frame33.landmarks.length < 33) := by
    simp [frame33]
  have hne : includedJoints defaultConfig frame33 frame33 ≠ [] := by
    rw [show includedJoints defaultConfig frame33 frame33 = keyJoints
      from rfl]
    simp [keyJoints]
  exact ⟨h33, hne,
    ((claim_C4_angular_score defaultConfig frame33 frame33).2.2 h33).2 hne⟩

/-- C7: `calculateJointAngle` always returns a value in [0, 180] degrees;
it returns 0 (not an error or NaN) when either vector from the vertex has
zero magnitude; and for non-degenerate inputs, collinear same-direction
rays give 0°, opposite-direction rays give 180°, and perpendicular rays
give 90°. -/
theorem claim_C7_joint_angle :
    (∀ p1 p2 p3 : Point3D, 0 ≤ calculateJointAngle p1 p2 p3 ∧
      calculateJointAngle p1 p2 p3 ≤ 180) ∧
    (∀ p1 p2 p3 : Point3D,
      mag3 (vsub p1 p2) = 0 ∨ mag3 (vsub p3 p2) = 0 →
      calculateJointAngle p1 p2 p3 = 0) ∧
    (∀ (p2 v : Point3D) (t s : ℝ), mag3 v ≠ 0 → 0 < t → 0 < s →
      calculateJointAngle ⟨p2.x + t * v.x, p2.y + t * v.y, p2.z + t * v.z⟩
        p2 ⟨p2.x + s * v.x, p2.y + s * v.y, p2.z + s * v.z⟩ = 0) ∧
    (∀ (p2 v : Point3D) (t s : ℝ), mag3 v ≠ 0 → 0 < t → 0 < s →
      calculateJointAngle ⟨p2.x + t * v.x, p2.y + t * v.y, p2.z + t * v.z⟩
        p2 ⟨p2.x - s * v.x, p2.y - s * v.y, p2.z - s * v.z⟩ = 180) ∧
    (∀ p1 p2 p3 : Point3D,
      dot3 (vsub p1 p2) (vsub p3 p2) = 0 →
      mag3 (vsub p1 p2) ≠ 0 → mag3 (vsub p3 p2) ≠ 0 →
      calculateJointAngle p1 p2 p3 = 90) := by
  refine ⟨?_, ?_, ?_, ?_, ?_⟩
  · intro p1 p2 p3
    unfold calculateJointAngle
    by_cases h : mag3 (vsub p1 p2) = 0 ∨ mag3 (vsub p3 p2) = 0
    · rw [if_pos h]; norm_num
    · rw [if_neg h]
      have h1 := Real.arccos_nonneg (max (-1) (min 1
        (dot3 (vsub p1 p2) (vsub p3 p2) /
          (mag3 (vsub p1 p2) * mag3 (vsub p3 p2)))))
      have h2 := Real.arccos_le_pi (max (-1) (min 1
        (dot3 (vsub p1 p2) (vsub p3 p2) /
          (mag3 (vsub p1 p2) * mag3 (vsub p3 p2)))))
      constructor
      · exact div_nonneg (mul_nonneg h1 (by norm_num)) Real.pi_pos.le
      · rw [div_le_iff₀ Real.pi_pos]
        linarith
  · intro p1 p2 p3 h
    unfold calculateJointAngle
    rw [if_pos h]
  · intro p2 v t s hv ht hs
    have hv1 : vsub ⟨p2.x + t * v.x, p2.y + t * v.y, p2.z + t * v.z⟩ p2 =
        (⟨t * v.x, t * v.y, t * v.z⟩ : Point3D) := by
      unfold vsub
      simp only [Point3D.mk.injEq]
      refine ⟨by ring, by ring, by ring⟩
    have hv2 : vsub ⟨p2.x + s * v.x, p2.y + s * v.y, p2.z + s * v.z⟩ p2 =
        (⟨s * v.x, s * v.y, s * v.z⟩ : Point3D) := by
      unfold vsub
      simp only [Point3D.mk.injEq]
      refine ⟨by ring, by ring, by ring⟩
    unfold calculateJointAngle
    rw [hv1, hv2, mag3_smul t v, mag3_smul s v, abs_of_pos ht, abs_of_pos hs]
    have hdot : dot3 ⟨t * v.x, t * v.y, t * v.z⟩
        ⟨s * v.x, s * v.y, s * v.z⟩ = t * s * (mag3 v * mag3 v) := by
      unfold dot3
      rw [mag3_mul_self]
      ring
    rw [if_neg (by
      push_neg
      exact ⟨mul_ne_zero (ne_of_gt ht) hv, mul_ne_zero (ne_of_gt hs) hv⟩)]
    have harg : t * s * (mag3 v * mag3 v) / (t * mag3 v * (s * mag3 v)) =
        1 := by
      field_simp
      ring
    rw [hdot, harg]
    norm_num [Real.arccos_one]
  · intro p2 v t s hv ht hs
    have hv1 : vsub ⟨p2.x + t * v.x, p2.y + t * v.y, p2.z + t * v.z⟩ p2 =
        (⟨t * v.x, t * v.y, t * v.z⟩ : Point3D) := by
      unfold vsub
      simp only [Point3D.mk.injEq]
      refine ⟨by ring, by ring, by ring⟩
    have hv2 : vsub ⟨p2.x - s * v.x, p2.y - s * v.y, p2.z - s * v.z⟩ p2 =
        (⟨-s * v.x, -s * v.y, -s * v.z⟩ : Point3D) := by
      unfold vsub
      simp only [Point3D.mk.injEq]
      refine ⟨by ring, by ring, by ring⟩
    unfold calculateJointAngle
    rw [hv1, hv2, mag3_smul t v, mag3_smul (-s) v, abs_of_pos ht, abs_neg,
      abs_of_pos hs]
    have hdot : dot3 ⟨t * v.x, t * v.y, t * v.z⟩
        ⟨-s * v.x, -s * v.y, -s * v.z⟩ =
        -(t * s * (mag3 v * mag3 v)) := by
      unfold dot3
      rw [mag3_mul_self]
      ring
    rw [if_neg (by
      push_neg
      exact ⟨mul_ne_zero (ne_of_gt ht) hv, mul_ne_zero (ne_of_gt hs) hv⟩)]
    have harg : -(t * s * (mag3 v * mag3 v)) / (t * mag3 v * (s * mag3 v)) =
        -1 := by
      field_simp
      ring
    rw [hdot, harg]
    norm_num [Real.arccos_neg_one]
    field_simp
  · intro p1 p2 p3 hdot hm1 hm2
    unfold calculateJointAngle
    rw [if_neg (by push_neg; exact ⟨hm1, hm2⟩)]
    rw [hdot, zero_div]
    norm_num [Real.arccos_zero]
    field_simp
    ring

theorem claim_C7_joint_angle_witness :
    mag3 ⟨1, 0, 0⟩ ≠ 0 ∧
    calculateJointAngle ⟨1, 0, 0⟩ ⟨0, 0, 0⟩ ⟨2, 0, 0⟩ = 0 ∧
    calculateJointAngle ⟨1, 0, 0⟩ ⟨0, 0, 0⟩ ⟨-1, 0, 0⟩ = 180 ∧
    calculateJointAngle ⟨1, 0, 0⟩ ⟨0, 0, 0⟩ ⟨0, 1, 0⟩ = 90 := by
  have hm : mag3 (⟨1, 0, 0⟩ : Point3D) ≠ 0 := by
    unfold mag3
    norm_num
  refine ⟨hm, ?_, ?_, ?_⟩
  · have h := claim_C7_joint_angle.2.2.1 ⟨0, 0, 0⟩ ⟨1, 0, 0⟩ 1 2 hm
      one_pos two_pos
    norm_num at h
    exact h
  · have h := claim_C7_joint_angle.2.2.2.1 ⟨0, 0, 0⟩ ⟨1, 0, 0⟩ 1 1 hm
      one_pos one_pos
    norm_num at h
    exact h
  · have h := claim_C7_joint_angle.2.2.2.2 ⟨1, 0, 0⟩ ⟨0, 0, 0⟩ ⟨0, 1, 0⟩
      (by unfold dot3 vsub; norm_num)
      (by unfold mag3 vsub; norm_num)
      (by unfold mag3 vsub; norm_num)
    exact h

theorem normalizeFrame_small (cfg : ComparatorConfig) (f : Frame)
    (h : f.landmarks.length < 13) : normalizeFrame cfg f = f := by
  have hc : centerNormalize f = f := by
    unfold centerNormalize
    rw [if_pos (by omega)]
  have hs : scaleNormalize f = f := by
    unfold scaleNormalize
    rw [if_pos h]
  have hr : rotationNormalize f = f := by
    unfold rotationNormalize
    rw [if_pos h]
  unfold normalizeFrame
  cases cfg.center <;> cases cfg.scale <;> cases cfg.rotation <;>
    simp [hc, hs, hr]

theorem angular_small (cfg : ComparatorConfig) (f g : Frame)
    (h : f.landmarks.length < 33 ∨ g.landmarks.length < 33) :
    calculateAngularScore cfg f g = 0 := by
  unfold calculateAngularScore
  rw [if_pos h]

theorem compareVideos_single (cfg : ComparatorConfig) (f g : Frame) :
    (compareVideos cfg ⟨[f]⟩ ⟨[g]⟩).overallScore =
      compareFrames cfg (normalizeFrame cfg f) (normalizeFrame cfg g) := by
  unfold compareVideos
  rw [if_neg (by norm_num)]
  simp [normalizedPair, show List.range 1 = [0] from rfl,
    List.getD_cons_zero, calculateStatistics]

theorem totalWeight_one_pair (c : Landmark) :
    totalWeight defaultConfig oneLandmarkFrame ⟨[c], 0⟩ =
      (if c.visibility = none then (0.3 : ℝ)
       else if (0.5 : ℝ) ≤ c.visibility.getD 0 then 0.3 else 0) := by
  cases hv : c.visibility with
  | none =>
    simp [totalWeight, includedIndices, oneLandmarkFrame, pairVisible,
      isLandmarkVisible, landmarkWeight, defaultLandmarkWeights,
      defaultConfig, defaultLandmark, hv,
      show List.range 1 = [0] from rfl, List.getD_cons_zero]
  | some v =>
    by_cases hle : (0.5 : ℝ) ≤ v <;>
      simp [totalWeight, includedIndices, oneLandmarkFrame, pairVisible,
        isLandmarkVisible, landmarkWeight, defaultLandmarkWeights,
        defaultConfig, defaultLandmark, hv, hle,
        show List.range 1 = [0] from rfl, List.getD_cons_zero]

theorem euclid_self_eval :
    calculateEuclideanScore defaultConfig oneLandmarkFrame oneLandmarkFrame
      = 100 := by
  have hw : totalWeight defaultConfig oneLandmarkFrame oneLandmarkFrame =
      0.3 := by
    have := totalWeight_one_pair ⟨0, 0, 0, none⟩
    simpa [oneLandmarkFrame] using this
  have hd : totalWeightedDistance defaultConfig oneLandmarkFrame
      oneLandmarkFrame = 0 := by
    simp [totalWeightedDistance, includedIndices, oneLandmarkFrame,
      pairVisible, isLandmarkVisible, pairDistance, calculateDistance,
      Landmark.pos, landmarkWeight, defaultLandmarkWeights, defaultConfig,
      defaultLandmark, show List.range 1 = [0] from rfl,
      List.getD_cons_zero, Real.sqrt_zero]
  unfold calculateEuclideanScore
  rw [if_neg (by norm_num [oneLandmarkFrame]), euclidAcc_eq]
  simp only [Prod.fst, Prod.snd]
  rw [hw, hd]
  rw [if_neg (by norm_num)]
  norm_num [Real.exp_zero]

theorem euclid_shift_eval :
    calculateEuclideanScore defaultConfig oneLandmarkFrame
      ⟨[⟨1, 0, 0, none⟩], 0⟩ = 100 * Real.exp (-2) := by
  have hw : totalWeight defaultConfig oneLandmarkFrame
      ⟨[⟨1, 0, 0, none⟩], 0⟩ = 0.3 := by
    have := totalWeight_one_pair ⟨1, 0, 0, none⟩
    simpa using this
  have hd : totalWeightedDistance defaultConfig oneLandmarkFrame
      ⟨[⟨1, 0, 0, none⟩], 0⟩ = 0.3 := by
    have h1 : calculateDistance (⟨0, 0, 0⟩ : Point3D) ⟨1, 0, 0⟩ = 1 := by
      unfold calculateDistance
      norm_num
    simp [totalWeightedDistance, includedIndices, oneLandmarkFrame,
      pairVisible, isLandmarkVisible, pairDistance, Landmark.pos,
      landmarkWeight, defaultLandmarkWeights, defaultConfig,
      defaultLandmark, show List.range 1 = [0] from rfl,
      List.getD_cons_zero, h1]
  unfold calculateEuclideanScore
  rw [if_neg (by norm_num [oneLandmarkFrame]), euclidAcc_eq]
  simp only [Prod.fst, Prod.snd]
  rw [hw, hd]
  rw [if_neg (by norm_num)]
  have h03 : (0.3 : ℝ) / 0.3 = 1 := by norm_num
  rw [h03]
  norm_num
  exact (Real.exp_pos _).le

theorem overall_self_eval :
    (compareVideos defaultConfig oneLandmarkVideo
        oneLandmarkVideo).overallScore = 60 := by
  rw [show oneLandmarkVideo = (⟨[oneLandmarkFrame]⟩ : Video) from rfl,
    compareVideos_single]
  rw [normalizeFrame_small _ _ (by norm_num [oneLandmarkFrame])]
  unfold compareFrames
  rw [euclid_self_eval,
    angular_small defaultConfig _ _ (Or.inl (by norm_num [oneLandmarkFrame]))]
  norm_num [defaultConfig]

theorem overall_shift_eval :
    (compareVideos defaultConfig oneLandmarkVideo
        (shiftVideo ⟨1, 0, 0⟩ oneLandmarkVideo)).overallScore =
      60 * Real.exp (-2) := by
  have hsv : shiftVideo ⟨1, 0, 0⟩ oneLandmarkVideo =
      (⟨[⟨[⟨1, 0, 0, none⟩], 0⟩]⟩ : Video) := by
    simp [shiftVideo, shiftFrame, shiftLandmark, oneLandmarkVideo,
      oneLandmarkFrame]
  rw [hsv, show oneLandmarkVideo = (⟨[oneLandmarkFrame]⟩ : Video) from rfl,
    compareVideos_single]
  rw [normalizeFrame_small _ _ (by norm_num [oneLandmarkFrame]),
    normalizeFrame_small _ _ (by norm_num)]
  unfold compareFrames
  rw [euclid_shift_eval,
    angular_small defaultConfig _ _ (Or.inl (by norm_num [oneLandmarkFrame]))]
  norm_num [defaultConfig]
  ring

/-- C9, counterexample: for the one-landmark pose, whose frames have fewer
than 25 landmarks so that centering is silently skipped, comparing the pose
against its uniform translate by (1,0,0) under the default configuration
(which has `center = true`) changes `overallScore`: the claim fails as
stated for poses without the hip landmarks. -/
theorem claim_C9_counterexample :
    (compareVideos defaultConfig oneLandmarkVideo
        (shiftVideo ⟨1, 0, 0⟩ oneLandmarkVideo)).overallScore ≠
      (compareVideos defaultConfig oneLandmarkVideo
        oneLandmarkVideo).overallScore := by
  rw [overall_shift_eval, overall_self_eval]
  have h1 : Real.exp (-2 : ℝ) < 1 := by
    rw [show (1 : ℝ) = Real.exp 0 from (Real.exp_zero).symm]
    exact Real.exp_lt_exp.mpr (by norm_num)
  have h2 : (0 : ℝ) < Real.exp (-2) := Real.exp_pos _
  intro h
  nlinarith

theorem centerNormalize_shiftFrame (off : Point3D) (f : Frame)
    (h : 25 ≤ f.landmarks.length) :
    centerNormalize (shiftFrame off f) = centerNormalize f := by
  have hlen : (shiftFrame off f).landmarks.length = f.landmarks.length := by
    simp [shiftFrame]
  unfold centerNormalize
  rw [if_neg (by rw [hlen]; omega), if_neg (by omega)]
  have h23 : (shiftFrame off f).landmarks.getD 23 defaultLandmark =
      shiftLandmark off (f.landmarks.getD 23 defaultLandmark) := by
    simp only [shiftFrame]
    exact getD_map_of_lt (shiftLandmark off) f.landmarks 23 defaultLandmark
      defaultLandmark (by omega)
  have h24 : (shiftFrame off f).landmarks.getD 24 defaultLandmark =
      shiftLandmark off (f.landmarks.getD 24 defaultLandmark) := by
    simp only [shiftFrame]
    exact getD_map_of_lt (shiftLandmark off) f.landmarks 24 defaultLandmark
      defaultLandmark (by omega)
  rw [h23, h24]
  have htr : ∀ (a b : Landmark),
      translateLandmarks (f.landmarks.map (shiftLandmark off))
        (calculateMidpoint (shiftLandmark off a).pos
          (shiftLandmark off b).pos) =
      translateLandmarks f.landmarks (calculateMidpoint a.pos b.pos) := by
    intro a b
    unfold translateLandmarks calculateMidpoint shiftLandmark Landmark.pos
    rw [List.map_map]
    congr 1
    funext lm
    simp only [Function.comp]
    simp only [Landmark.mk.injEq]
    refine ⟨by ring, by ring, by ring, trivial⟩
  simp only [shiftFrame, htr]

theorem normalizeFrame_shiftFrame (cfg : ComparatorConfig) (off : Point3D)
    (f : Frame) (hc : cfg.center = true) (h : 25 ≤ f.landmarks.length) :
    normalizeFrame cfg (shiftFrame off f) = normalizeFrame cfg f := by
  unfold normalizeFrame
  simp only [hc, if_true]
  rw [centerNormalize_shiftFrame off f h]

/-- C9, amended: for every pose video in which every frame has at least 25
landmarks (so the hip landmarks exist and centering actually applies) and
every configuration with `center = true`, comparing the video against its
uniform translate by any constant 3D offset yields the same `overallScore`
as comparing it against itself. -/
theorem claim_C9_translation_invariance (cfg : ComparatorConfig) (P : Video)
    (off : Point3D) (hc : cfg.center = true)
    (h25 : ∀ f ∈ P.frames, 25 ≤ f.landmarks.length) :
    (compareVideos cfg P (shiftVideo off P)).overallScore =
      (compareVideos cfg P P).overallScore := by
  have hlen : (shiftVideo off P).frames.length = P.frames.length := by
    simp [shiftVideo]
  have hpair : ∀ i ∈ List.range (min P.frames.length P.frames.length),
      normalizedPair cfg P (shiftVideo off P) i =
        normalizedPair cfg P P i := by
    intro i hi
    simp only [List.mem_range] at hi
    have hi2 : i < P.frames.length := by omega
    unfold normalizedPair
    have hgd : (shiftVideo off P).frames.getD i defaultFrame =
        shiftFrame off (P.frames.getD i defaultFrame) := by
      simp only [shiftVideo]
      exact getD_map_of_lt (shiftFrame off) P.frames i defaultFrame
        defaultFrame hi2
    rw [hgd, normalizeFrame_shiftFrame cfg off _ hc
      (h25 _ (getD_mem P.frames i defaultFrame hi2))]
  have hres : compareVideos cfg P (shiftVideo off P) =
      compareVideos cfg P P := by
    unfold compareVideos
    rw [hlen]
    by_cases hmin : min P.frames.length P.frames.length = 0
    · rw [if_pos hmin, if_pos hmin]
    · rw [if_neg hmin, if_neg hmin]
      have hFS : ((List.range (min P.frames.length P.frames.length)).map
          fun i => compareFrames cfg
            (normalizedPair cfg P (shiftVideo off P) i).1
            (normalizedPair cfg P (shiftVideo off P) i).2) =
          ((List.range (min P.frames.length P.frames.length)).map
          fun i => compareFrames cfg (normalizedPair cfg P P i).1
            (normalizedPair cfg P P i).2) :=
        List.map_congr_left fun i hi => by rw [hpair i hi]
      have hPS : ((List.range (min P.frames.length P.frames.length)).map
          fun i => calculateEuclideanScore cfg
            (normalizedPair cfg P (shiftVideo off P) i).1
            (normalizedPair cfg P (shiftVideo off P) i).2) =
          ((List.range (min P.frames.length P.frames.length)).map
          fun i => calculateEuclideanScore cfg (normalizedPair cfg P P i).1
            (normalizedPair cfg P P i).2) :=
        List.map_congr_left fun i hi => by rw [hpair i hi]
      have hAS : ((List.range (min P.frames.length P.frames.length)).map
          fun i => calculateAngularScore cfg
            (normalizedPair cfg P (shiftVideo off P) i).1
            (normalizedPair cfg P (shiftVideo off P) i).2) =
          ((List.range (min P.frames.length P.frames.length)).map
          fun i => calculateAngularScore cfg (normalizedPair cfg P P i).1
            (normalizedPair cfg P P i).2) :=
        List.map_congr_left fun i hi => by rw [hpair i hi]
      rw [hFS, hPS, hAS]
  rw [hres]

theorem claim_C9_translation_witness :
    defaultConfig.center = true ∧
    (∀ f ∈ video25.frames, 25 ≤ f.landmarks.length) ∧
    (compareVideos defaultConfig video25
        (shiftVideo ⟨1, 2, 3⟩ video25)).overallScore =
      (compareVideos defaultConfig video25 video25).overallScore := by
  have h25 : ∀ f ∈ video25.frames, 25 ≤ f.landmarks.length := by
    intro f hf
    simp only [video25, List.mem_singleton] at hf
    subst hf
    simp
  exact ⟨rfl, h25,
    claim_C9_translation_invariance defaultConfig video25 ⟨1, 2, 3⟩ rfl h25⟩

end VideoParser
